import Mathlib

/-!
Verification of the destination factory (`src/storages/factory.go`) of the
jitsu event-delivery system.

The factory function `Create` is embedded shallowly: the Go function is
translated statement by statement into a pure Lean function over an explicit
configuration record.  Calls into collaborator packages that are not part of
the source fragment (`schema.NewFieldMapper`, `schema.NewMappingStep`,
`enrichment.NewRule`, `events.NewPersistentQueue`, and the destination type
constants) are modelled from the specification; each such definition carries a
doc comment starting with `Modelled from the spec:`.  Fallible collaborators
whose failure condition is outside the source are driven by an explicit
environment `Env` of failure flags, so every error path of `Create` is
reachable in the model.

Resource accounting: the Go function may open a persistent queue file and, on
one error path, closes it again.  The model returns, besides the Go triple
`(StorageProxy, *PersistentQueue, error)`, the list of queues opened during
the call and the list of queues closed during the call, so leak freedom is a
statement about the result.
-/

namespace jitsu

/-- `defaultTableName` constant from factory.go line 16. -/
def defaultTableName : String := "events"

/-- `BatchMode` constant from factory.go line 18. -/
def BatchMode : String := "batch"

/-- `StreamMode` constant from factory.go line 19. -/
def StreamMode : String := "stream"

/-- `unknownDestination` error from factory.go line 22. -/
def unknownDestination : String := "Unknown destination type"

namespace enrichment

/-- Modelled from the spec: an enrichment rule instance.  The package
`enrichment` is not under src/; the spec says the two default rules derive
geolocation from the viewer network address and parse the user-agent, and each
configured entry produces one rule instance. -/
inductive Rule where
  | DefaultJsIpRule : Rule
  | DefaultJsUaRule : Rule
  | configured : String → Rule
deriving DecidableEq, Repr

/-- Modelled from the spec: a configured enrichment rule entry
(`enrichment.RuleConfig`).  `str` stands for its `String()` rendering; `ok`
records whether `enrichment.NewRule` succeeds on it, which is decided by code
outside src/. -/
structure RuleConfig where
  str : String
  ok : Bool
deriving DecidableEq, Repr

/-- Modelled from the spec: `enrichment.NewRule` produces one rule instance
per configuration entry or fails; "construction failure on any entry aborts
destination setup". -/
def NewRule (rc : RuleConfig) : Except String Rule :=
  if rc.ok then Except.ok (Rule.configured rc.str) else Except.error "invalid enrichment rule"

end enrichment

namespace schema

/-- Modelled from the spec: `schema.FieldMappingType`; the zero value
`schema.Default` is used when no data layout is configured. -/
abbrev FieldMappingType : Type := String

/-- Modelled from the spec: `schema.Default`, the default field mapping type. -/
def Default : FieldMappingType := ("" : String)

/-- Modelled from the spec: the structured mapping rule set (`schema.Mapping`)
with its optional "keep unmapped fields" policy; field rule contents are kept
abstract as their rendered strings. -/
structure Mapping where
  Fields : List String
  KeepUnmapped : Option Bool
deriving DecidableEq, Repr

/-- Modelled from the spec: the field mapper produced by
`schema.NewFieldMapper`; its behaviour at event time is out of scope, so it is
a token value. -/
structure FieldMapper where
deriving DecidableEq, Repr

/-- Modelled from the spec: the sql type casts returned by
`schema.NewFieldMapper` alongside the mapper. -/
abbrev SqlTypeCasts : Type := List (String × String)

/-- Modelled from the spec: `schema.NewFieldMapper` is not under src/.  The
spec mandates: "Exactly one mapping style is active per destination;
supplying both is a configuration error raised at construction, not at event
time" and "malformed mapping rule at construction time is fatal to destination
setup".  Both-styles rejection is modelled directly; any other malformed-rule
failure is driven by the environment flag `malformed`. -/
def NewFieldMapper (malformed : Bool) (mappingFieldType : FieldMappingType)
(oldStyleMappings : List String) (newStyleMapping : Option Mapping) :
    Except String (FieldMapper × SqlTypeCasts) :=
  if oldStyleMappings ≠ [] ∧ newStyleMapping.isSome then
    Except.error "both legacy and structured mapping configuration supplied"
  else if malformed then
    Except.error "malformed mapping rule"
  else
    Except.ok (⟨⟩, ([] : List (String × String)))

/-- Modelled from the spec: the transform pipeline object
(`schema.MappingStep`), retaining the construction inputs the spec makes
observable: destination name, resolved table name, field mapper, the full
enrichment rule list passed explicitly, and the break-on-error flag. -/
structure MappingStep where
  name : String
  tableName : String
  fieldMapper : FieldMapper
  enrichmentRules : List enrichment.Rule
  breakOnError : Bool
deriving DecidableEq, Repr

/-- Modelled from the spec: `schema.NewMappingStep` builds the transform
pipeline from its explicit inputs or fails; the failure condition lives
outside src/ and is driven by the environment flag `fails`. -/
def NewMappingStep (fails : Bool) (name tableName : String) (fieldMapper : FieldMapper)
(enrichmentRules : List enrichment.Rule) (breakOnError : Bool) :
    Except String MappingStep :=
  if fails then Except.error "invalid mapping step configuration"
  else Except.ok ⟨name, tableName, fieldMapper, enrichmentRules, breakOnError⟩

end schema

namespace events

/-- Modelled from the spec: a durable queue handle
(`events.PersistentQueue`): "one durable queue file per stream-mode
destination, named deterministically from the destination name, stored under a
configured event-log directory". -/
structure PersistentQueue where
  queueName : String
  logEventPath : String
deriving DecidableEq, Repr

/-- Modelled from the spec: `events.NewPersistentQueue` opens the queue file
for the given queue name under the event-log directory, or fails; the failure
condition (disk errors) lives outside src/ and is driven by the environment
flag `fails`. -/
def NewPersistentQueue (fails : Bool) (queueName logEventPath : String) :
    Except String PersistentQueue :=
  if fails then Except.error "cannot open persistent queue"
  else Except.ok ⟨queueName, logEventPath⟩

end events

/-- Modelled from the spec: destination type constant `RedshiftType`; the
constants are declared elsewhere in the repository, the spec lists the
recognized types. -/
def RedshiftType : String := "redshift"

/-- Modelled from the spec: destination type constant `BigQueryType`. -/
def BigQueryType : String := "bigquery"

/-- Modelled from the spec: destination type constant `PostgresType`. -/
def PostgresType : String := "postgres"

/-- Modelled from the spec: destination type constant `ClickHouseType`. -/
def ClickHouseType : String := "clickhouse"

/-- Modelled from the spec: destination type constant `S3Type`. -/
def S3Type : String := "s3"

/-- Modelled from the spec: destination type constant `SnowflakeType`. -/
def SnowflakeType : String := "snowflake"

/-- `DataLayout` struct from factory.go lines 39-45.  Adapter-specific blocks
are opaque to the factory logic and omitted. -/
structure DataLayout where
  MappingType : schema.FieldMappingType
  Mapping : List String
  Mappings : Option schema.Mapping
  TableNameTemplate : String
  PrimaryKeyFields : List String
deriving DecidableEq, Repr

/-- `DestinationConfig` struct from factory.go lines 24-37 (`Type` is a Lean
keyword, hence `Type'`).  The adapter connection blocks and `only_tokens` are
opaque to `Create` and omitted. -/
structure DestinationConfig where
  Type' : String
  Mode : String
  DataLayout : Option DataLayout
  Enrichment : List enrichment.RuleConfig
  BreakOnError : Bool
deriving DecidableEq, Repr

/-- `Config` struct from factory.go lines 47-59, keeping the fields the
factory computes; `ctx`, `monitorKeeper`, `eventsCache` and `loggerFactory`
are opaque external handles passed through unchanged and omitted. -/
structure Config where
  name : String
  destination : DestinationConfig
  processor : schema.MappingStep
  streamMode : Bool
  eventQueue : Option events.PersistentQueue
  pkFields : List String
  sqlTypeCasts : schema.SqlTypeCasts
deriving DecidableEq, Repr

/-- The storage constructor selected by the dispatch switch of factory.go
lines 178-196. -/
inductive StorageKind where
  | awsRedshift | bigQuery | postgres | clickHouse | s3 | snowflake
deriving DecidableEq, Repr

/-- A constructed storage proxy (`newProxy(ctor, storageConfig)`). -/
structure StorageProxy where
  kind : StorageKind
  config : Config
deriving DecidableEq, Repr

/-- Environment of failure outcomes for the fallible collaborators whose
failure conditions are outside src/. -/
structure Env where
  fieldMapperMalformed : Bool
  mappingStepFails : Bool
  queueOpenFails : Bool
deriving DecidableEq, Repr

/-- The Go return triple `(events.StorageProxy, *events.PersistentQueue,
error)` of `Create`, extended with resource accounting: the queues opened
during the call and the queues closed during the call. -/
structure CreateResult where
  storageProxy : Option StorageProxy
  eventQueue : Option events.PersistentQueue
  err : Option String
  opened : List events.PersistentQueue
  closed : List events.PersistentQueue
deriving DecidableEq, Repr

/-- An error return `return nil, nil, err` of `Create`: no proxy, no queue,
and no queue was opened during the call. -/
def mkErr (e : String) : CreateResult :=
  { storageProxy := none, eventQueue := none, err := some e, opened := [], closed := [] }

/-- Defaulting block of factory.go lines 65-70: an empty `Type` defaults to
the destination name, an empty `Mode` defaults to `BatchMode`. -/
def withDefaults (name : String) (d : DestinationConfig) : DestinationConfig :=
  let d := if d.Type' = "" then { d with Type' := name } else d
  if d.Mode = "" then { d with Mode := BatchMode } else d

/-- Table name resolution of factory.go lines 74-96: the data layout's
non-empty template, else `defaultTableName`. -/
def effectiveTableName (d : DestinationConfig) : String :=
  let tableName :=
    match d.DataLayout with
    | some dl => if dl.TableNameTemplate ≠ "" then dl.TableNameTemplate else ""
    | none => ""
  if tableName = "" then defaultTableName else tableName

/-- Error message of factory.go line 99. -/
def modeErrorMessage (mode : String) : String :=
  "Unknown destination mode: " ++ mode ++ ". Available mode: [" ++ BatchMode ++ ", " ++
    StreamMode ++ "]"

/-- Error message of factory.go line 120. -/
def enrichmentRuleError (rc : enrichment.RuleConfig) (e : String) : String :=
  "Error creating enrichment rule [" ++ rc.str ++ "]: " ++ e

/-- Configured-rule loop of factory.go lines 115-124: build one rule per
configured entry in order, aborting with the wrapped error of the first entry
whose construction fails. -/
def buildConfiguredRules : List enrichment.RuleConfig → Except String (List enrichment.Rule)
  | [] => Except.ok []
  | rc :: rest =>
    match enrichment.NewRule rc with
    | Except.error e => Except.error (enrichmentRuleError rc e)
    | Except.ok rule =>
      match buildConfiguredRules rest with
      | Except.error e => Except.error e
      | Except.ok rules => Except.ok (rule :: rules)

/-- Dispatch switch of factory.go lines 178-196: map a destination type to its
storage constructor, `none` for the default branch. -/
def typeToKind (t : String) : Option StorageKind :=
  if t = RedshiftType then some StorageKind.awsRedshift
  else if t = BigQueryType then some StorageKind.bigQuery
  else if t = PostgresType then some StorageKind.postgres
  else if t = ClickHouseType then some StorageKind.clickHouse
  else if t = S3Type then some StorageKind.s3
  else if t = SnowflakeType then some StorageKind.snowflake
  else none

/-- Tail of `Create` from factory.go lines 163-198: assemble the storage
config and dispatch on the destination type; the default branch closes the
event queue (if one was opened) and returns the `unknownDestination` error. -/
def dispatchStorage (name : String) (destination : DestinationConfig)
(processor : schema.MappingStep) (pkFields : List String)
(sqlTypeCasts : schema.SqlTypeCasts) (eventQueue : Option events.PersistentQueue) :
    CreateResult :=
  let storageConfig : Config :=
    { name := name, destination := destination, processor := processor,
      streamMode := destination.Mode = StreamMode, eventQueue := eventQueue,
      pkFields := pkFields, sqlTypeCasts := sqlTypeCasts }
  match typeToKind destination.Type' with
  | some kind =>
    { storageProxy := some ⟨kind, storageConfig⟩, eventQueue := eventQueue, err := none,
      opened := eventQueue.toList, closed := [] }
  | none =>
    { storageProxy := none, eventQueue := none, err := some unknownDestination,
      opened := eventQueue.toList, closed := eventQueue.toList }

/-- Data-layout resolution of factory.go lines 78-80: the mapping field type,
`schema.Default` when no data layout is configured. -/
def resolvedMappingType (d : DestinationConfig) : schema.FieldMappingType :=
  match d.DataLayout with
  | some dl => dl.MappingType
  | none => schema.Default

/-- Data-layout resolution of factory.go lines 75-81: the legacy string-rule
mapping list, empty when no data layout is configured. -/
def resolvedOldStyleMappings (d : DestinationConfig) : List String :=
  match d.DataLayout with
  | some dl => dl.Mapping
  | none => []

/-- Data-layout resolution of factory.go lines 76-82: the structured mapping
rule set, absent when no data layout is configured. -/
def resolvedNewStyleMapping (d : DestinationConfig) : Option schema.Mapping :=
  match d.DataLayout with
  | some dl => dl.Mappings
  | none => none

/-- Data-layout resolution of factory.go lines 77-90: the primary-key field
set, empty when no data layout is configured. -/
def resolvedPkFields (d : DestinationConfig) : List String :=
  match d.DataLayout with
  | some dl => dl.PrimaryKeyFields
  | none => []

/-- Body of `Create` from factory.go lines 72-198, after the defaulting block:
resolve the data layout, validate the mode, build the enrichment rule list
(defaults first), build the field mapper and the mapping step, open the
persistent queue only in stream mode, then dispatch on the destination type. -/
def createResolved (env : Env) (name logEventPath : String)
(destination : DestinationConfig) : CreateResult :=
  let mappingFieldType := resolvedMappingType destination
  let oldStyleMappings := resolvedOldStyleMappings destination
  let newStyleMapping := resolvedNewStyleMapping destination
  let pkFields := resolvedPkFields destination
  let tableName := effectiveTableName destination
  if destination.Mode ≠ BatchMode ∧ destination.Mode ≠ StreamMode then
    mkErr (modeErrorMessage destination.Mode)
  else
    match buildConfiguredRules destination.Enrichment with
    | Except.error e => mkErr e
    | Except.ok configuredRules =>
      let enrichmentRules :=
        [enrichment.Rule.DefaultJsIpRule, enrichment.Rule.DefaultJsUaRule] ++ configuredRules
      match schema.NewFieldMapper env.fieldMapperMalformed mappingFieldType oldStyleMappings
          newStyleMapping with
      | Except.error e => mkErr e
      | Except.ok (fieldMapper, sqlTypeCasts) =>
        match schema.NewMappingStep env.mappingStepFails name tableName fieldMapper
            enrichmentRules destination.BreakOnError with
        | Except.error e => mkErr e
        | Except.ok processor =>
          if destination.Mode = StreamMode then
            match events.NewPersistentQueue env.queueOpenFails ("queue.dst=" ++ name)
                logEventPath with
            | Except.error e => mkErr e
            | Except.ok eventQueue =>
              dispatchStorage name destination processor pkFields sqlTypeCasts (some eventQueue)
          else
            dispatchStorage name destination processor pkFields sqlTypeCasts none

/-- `Create` from factory.go lines 63-199: default the destination type and
mode, then run the resolved construction. -/
def Create (env : Env) (name logEventPath : String) (destination : DestinationConfig) :
    CreateResult :=
  createResolved env name logEventPath (withDefaults name destination)

/-! ## Helper lemmas -/

theorem withDefaults_DataLayout (name : String) (d : DestinationConfig) :
    (withDefaults name d).DataLayout = d.DataLayout := by
  simp only [withDefaults]
  split <;> (try split) <;> rfl

theorem withDefaults_Enrichment (name : String) (d : DestinationConfig) :
    (withDefaults name d).Enrichment = d.Enrichment := by
  simp only [withDefaults]
  split <;> (try split) <;> rfl

theorem withDefaults_Type_empty (name : String) (d : DestinationConfig) (h : d.Type' = "") :
    (withDefaults name d).Type' = name := by
  simp only [withDefaults]
  split <;> (try split) <;> simp_all

theorem withDefaults_Type_nonempty (name : String) (d : DestinationConfig) (h : d.Type' ≠ "") :
    (withDefaults name d).Type' = d.Type' := by
  simp only [withDefaults]
  split <;> (try split) <;> simp_all

theorem withDefaults_Mode_empty (name : String) (d : DestinationConfig) (h : d.Mode = "") :
    (withDefaults name d).Mode = BatchMode := by
  simp only [withDefaults]
  split <;> (try split) <;> simp_all

theorem withDefaults_Mode_nonempty (name : String) (d : DestinationConfig) (h : d.Mode ≠ "") :
    (withDefaults name d).Mode = d.Mode := by
  simp only [withDefaults]
  split <;> (try split) <;> simp_all

theorem effectiveTableName_congr (d₁ d₂ : DestinationConfig)
    (h : d₁.DataLayout = d₂.DataLayout) : effectiveTableName d₁ = effectiveTableName d₂ := by
  unfold effectiveTableName
  rw [h]

theorem buildConfiguredRules_ok (l : List enrichment.RuleConfig) (rs : List enrichment.Rule)
    (h : buildConfiguredRules l = Except.ok rs) :
    rs = l.map (fun rc => enrichment.Rule.configured rc.str) := by
  induction l generalizing rs with
  | nil =>
    simp only [buildConfiguredRules, Except.ok.injEq] at h
    simp [← h]
  | cons rc rest ih =>
    simp only [buildConfiguredRules, enrichment.NewRule] at h
    by_cases hok : rc.ok
    · simp only [hok, if_true] at h
      cases hrest : buildConfiguredRules rest with
      | error e => rw [hrest] at h; simp at h
      | ok rules =>
        rw [hrest] at h
        simp only [Except.ok.injEq] at h
        simp [← h, ih rules hrest]
    · simp [hok] at h

theorem buildConfiguredRules_first_failure (l : List enrichment.RuleConfig)
    (h : ∃ rc ∈ l, rc.ok = false) :
    ∃ rc, rc ∈ l ∧ rc.ok = false ∧
      buildConfiguredRules l = Except.error (enrichmentRuleError rc "invalid enrichment rule") := by
  induction l with
  | nil => simp at h
  | cons rc rest ih =>
    by_cases hok : rc.ok
    · obtain ⟨rc₀, hmem, hfail⟩ := h
      rcases List.mem_cons.mp hmem with heq | hrest
      · rw [heq] at hfail; rw [hfail] at hok; simp at hok
      · obtain ⟨rc₁, hmem₁, hfail₁, hbuild₁⟩ := ih ⟨rc₀, hrest, hfail⟩
        refine ⟨rc₁, List.mem_cons_of_mem rc hmem₁, hfail₁, ?_⟩
        simp [buildConfiguredRules, enrichment.NewRule, hok, hbuild₁]
    · exact ⟨rc, List.mem_cons_self rc rest, Bool.eq_false_iff.mpr hok,
        by simp [buildConfiguredRules, enrichment.NewRule, hok]⟩

theorem createResolved_err_shape (env : Env) (name logEventPath : String)
    (d : DestinationConfig) :
    (createResolved env name logEventPath d).err.isSome = true →
      (createResolved env name logEventPath d).storageProxy = none ∧
      (createResolved env name logEventPath d).eventQueue = none ∧
      ∀ q ∈ (createResolved env name logEventPath d).opened,
        q ∈ (createResolved env name logEventPath d).closed := by
  simp only [createResolved]
  split
  · intro _; simp [mkErr]
  · split
    · intro _; simp [mkErr]
    · split
      · intro _; simp [mkErr]
      · split
        · intro _; simp [mkErr]
        · split
          · split
            · intro _; simp [mkErr]
            · simp only [dispatchStorage]
              split
              · simp
              · intro _; simp
          · simp only [dispatchStorage]
            split
            · simp
            · intro _; simp

theorem createResolved_unknown_type (env : Env) (name logEventPath : String)
    (d : DestinationConfig) (h : typeToKind d.Type' = none) :
    (createResolved env name logEventPath d).err.isSome = true := by
  simp only [createResolved]
  split
  · simp [mkErr]
  · split
    · simp [mkErr]
    · split
      · simp [mkErr]
      · split
        · simp [mkErr]
        · split
          · split
            · simp [mkErr]
            · simp [dispatchStorage, h]
          · simp [dispatchStorage, h]

theorem createResolved_mode_invalid (env : Env) (name logEventPath : String)
    (d : DestinationConfig) (h₁ : d.Mode ≠ BatchMode) (h₂ : d.Mode ≠ StreamMode) :
    createResolved env name logEventPath d = mkErr (modeErrorMessage d.Mode) := by
  simp only [createResolved]
  rw [if_pos ⟨h₁, h₂⟩]

theorem createResolved_dual_mapping (env : Env) (name logEventPath : String)
    (d : DestinationConfig) (dl : DataLayout) (m : schema.Mapping)
    (hdl : d.DataLayout = some dl) (hmap : dl.Mapping ≠ []) (hmaps : dl.Mappings = some m) :
    (createResolved env name logEventPath d).err.isSome = true := by
  have hold : resolvedOldStyleMappings d = dl.Mapping := by
    simp [resolvedOldStyleMappings, hdl]
  have hnew : resolvedNewStyleMapping d = some m := by
    simp [resolvedNewStyleMapping, hdl, hmaps]
  simp only [createResolved, hold, hnew]
  split
  · simp [mkErr]
  · split
    · simp [mkErr]
    · split
      · simp [mkErr]
      · next fm stc hfm =>
        exfalso
        simp [schema.NewFieldMapper, hmap] at hfm

theorem createResolved_rules_error (env : Env) (name logEventPath : String)
    (d : DestinationConfig) (e : String)
    (hmode : ¬(d.Mode ≠ BatchMode ∧ d.Mode ≠ StreamMode))
    (hrules : buildConfiguredRules d.Enrichment = Except.error e) :
    createResolved env name logEventPath d = mkErr e := by
  simp only [createResolved]
  rw [if_neg hmode, hrules]

theorem createResolved_batch_no_queue (env : Env) (name logEventPath : String)
    (d : DestinationConfig) (h : d.Mode ≠ StreamMode) :
    (createResolved env name logEventPath d).opened = [] := by
  simp only [createResolved]
  split
  · simp [mkErr]
  · split
    · simp [mkErr]
    · split
      · simp [mkErr]
      · split
        · simp [mkErr]
        · simp only [dispatchStorage]
          split <;> simp

theorem createResolved_queue_iff_stream (env : Env) (name logEventPath : String)
    (d : DestinationConfig) :
    (createResolved env name logEventPath d).err = none →
      ((createResolved env name logEventPath d).eventQueue.isSome = true ↔
        d.Mode = StreamMode) := by
  simp only [createResolved]
  split
  · simp [mkErr]
  · split
    · simp [mkErr]
    · split
      · simp [mkErr]
      · split
        · simp [mkErr]
        · split
          · next hs =>
            split
            · simp [mkErr]
            · simp only [dispatchStorage]
              split
              · intro _; simp [hs]
              · simp
          · next hb =>
            simp only [dispatchStorage]
            split
            · intro _; simp [hb]
            · simp

theorem createResolved_success (env : Env) (name logEventPath : String)
    (d : DestinationConfig) (proxy : StorageProxy) :
    (createResolved env name logEventPath d).storageProxy = some proxy →
      proxy.config.name = name ∧
      proxy.config.destination = d ∧
      proxy.config.processor.tableName = effectiveTableName d ∧
      proxy.config.processor.name = name ∧
      proxy.config.processor.breakOnError = d.BreakOnError ∧
      proxy.config.processor.enrichmentRules =
        enrichment.Rule.DefaultJsIpRule :: enrichment.Rule.DefaultJsUaRule ::
          d.Enrichment.map (fun rc => enrichment.Rule.configured rc.str) ∧
      proxy.config.eventQueue = (createResolved env name logEventPath d).eventQueue ∧
      (createResolved env name logEventPath d).err = none ∧
      typeToKind d.Type' = some proxy.kind ∧
      (∀ q, (createResolved env name logEventPath d).eventQueue = some q →
        q.queueName = "queue.dst=" ++ name ∧ q.logEventPath = logEventPath) := by
  simp only [createResolved]
  split
  · simp [mkErr]
  · split
    · simp [mkErr]
    · rename_i configuredRules hrules
      split
      · simp [mkErr]
      · rename_i fm stc hfm
        split
        · simp [mkErr]
        · rename_i processor hproc
          have hps : processor =
              ⟨name, effectiveTableName d, fm,
                [enrichment.Rule.DefaultJsIpRule, enrichment.Rule.DefaultJsUaRule] ++
                  configuredRules,
                d.BreakOnError⟩ := by
            simp only [schema.NewMappingStep] at hproc
            split at hproc
            · simp at hproc
            · injection hproc with h
              exact h.symm
          have hcr : configuredRules =
              d.Enrichment.map (fun rc => enrichment.Rule.configured rc.str) :=
            buildConfiguredRules_ok _ _ hrules
          split
          · split
            · simp [mkErr]
            · rename_i q hq
              have hqv : q = ⟨"queue.dst=" ++ name, logEventPath⟩ := by
                simp only [events.NewPersistentQueue] at hq
                split at hq
                · simp at hq
                · injection hq with h
                  exact h.symm
              simp only [dispatchStorage]
              split
              · rename_i kind hkind
                intro hp
                cases hp
                simp_all
              · simp
          · simp only [dispatchStorage]
            split
            · rename_i kind hkind
              intro hp
              cases hp
              simp_all
            · simp

theorem createResolved_opened_names (env : Env) (name logEventPath : String)
    (d : DestinationConfig) :
    ∀ q ∈ (createResolved env name logEventPath d).opened,
      q.queueName = "queue.dst=" ++ name ∧ q.logEventPath = logEventPath := by
  simp only [createResolved]
  split
  · simp [mkErr]
  · split
    · simp [mkErr]
    · split
      · simp [mkErr]
      · split
        · simp [mkErr]
        · split
          · split
            · simp [mkErr]
            · rename_i q hq
              have hqv : q = ⟨"queue.dst=" ++ name, logEventPath⟩ := by
                simp only [events.NewPersistentQueue] at hq
                split at hq
                · simp at hq
                · injection hq with h
                  exact h.symm
              simp only [dispatchStorage]
              split <;> simp [hqv]
          · simp only [dispatchStorage]
            split <;> simp

theorem string_append_assoc (a b c : String) : a ++ b ++ c = a ++ (b ++ c) := by
  apply String.ext
  simp [String.data_append]

theorem string_append_left_cancel (s a b : String) (h : s ++ a = s ++ b) : a = b := by
  apply String.ext
  have hd := congrArg String.data h
  simp only [String.data_append] at hd
  exact List.append_cancel_left hd

theorem Create_def (env : Env) (name logEventPath : String) (d : DestinationConfig) :
    Create env name logEventPath d =
      createResolved env name logEventPath (withDefaults name d) := rfl

theorem buildConfiguredRules_find (l : List enrichment.RuleConfig)
    (rc : enrichment.RuleConfig) (h : l.find? (fun x => !x.ok) = some rc) :
    buildConfiguredRules l =
      Except.error (enrichmentRuleError rc "invalid enrichment rule") := by
  induction l with
  | nil => simp at h
  | cons a rest ih =>
    by_cases hok : a.ok
    · rw [List.find?_cons_of_neg _ (by simp [hok])] at h
      simp [buildConfiguredRules, enrichment.NewRule, hok, ih h]
    · rw [List.find?_cons_of_pos _ (by simp [hok])] at h
      injection h with h
      subst h
      simp [buildConfiguredRules, enrichment.NewRule, hok]

theorem createResolved_eventQueue_mem_opened (env : Env) (name logEventPath : String)
    (d : DestinationConfig) (q : events.PersistentQueue)
    (h : (createResolved env name logEventPath d).eventQueue = some q) :
    q ∈ (createResolved env name logEventPath d).opened := by
  revert h
  simp only [createResolved]
  split
  · simp [mkErr]
  · split
    · simp [mkErr]
    · split
      · simp [mkErr]
      · split
        · simp [mkErr]
        · split
          · split
            · simp [mkErr]
            · simp only [dispatchStorage]
              split
              · intro h
                simp_all
              · simp
          · simp only [dispatchStorage]
            split
            · intro h
              simp_all
            · simp

theorem modeErrorMessage_contains_batch (m : String) :
    ∃ a b, modeErrorMessage m = a ++ (BatchMode ++ b) := by
  refine ⟨"Unknown destination mode: " ++ m ++ ". Available mode: [",
    ", " ++ StreamMode ++ "]", ?_⟩
  apply String.ext
  simp [modeErrorMessage, String.data_append, List.append_assoc]

theorem modeErrorMessage_contains_stream (m : String) :
    ∃ a b, modeErrorMessage m = a ++ (StreamMode ++ b) := by
  refine ⟨"Unknown destination mode: " ++ m ++ ". Available mode: [" ++ BatchMode ++ ", ",
    "]", ?_⟩
  apply String.ext
  simp [modeErrorMessage, String.data_append, List.append_assoc]

theorem typeToKind_eq_none (t : String)
    (h : t ∉ [RedshiftType, BigQueryType, PostgresType, ClickHouseType, S3Type,
      SnowflakeType]) : typeToKind t = none := by
  simp only [List.mem_cons, List.not_mem_nil, or_false, not_or] at h
  obtain ⟨h₁, h₂, h₃, h₄, h₅, h₆⟩ := h
  simp [typeToKind, h₁, h₂, h₃, h₄, h₅, h₆]

/-! ## Claim theorems -/

/-- C1: for every destination configuration whose (defaulted) type is not one
of the recognized destination types, `Create` returns an error, and every
queue opened during the call (the stream-mode persistent queue) is closed
before `Create` returns, so no open queue handle is leaked. -/
theorem create_unknown_type_errors_and_closes_queue (env : Env)
    (name logEventPath : String) (d : DestinationConfig)
    (h : (withDefaults name d).Type' ∉
      [RedshiftType, BigQueryType, PostgresType, ClickHouseType, S3Type, SnowflakeType]) :
    (Create env name logEventPath d).err.isSome = true ∧
    ∀ q ∈ (Create env name logEventPath d).opened,
      q ∈ (Create env name logEventPath d).closed := by
  have hk := typeToKind_eq_none _ h
  have he := createResolved_unknown_type env name logEventPath (withDefaults name d) hk
  exact ⟨he, (createResolved_err_shape env name logEventPath (withDefaults name d) he).2.2⟩

theorem create_unknown_type_errors_and_closes_queue_witness :
    ((withDefaults "dst" ⟨"weird", "stream", none, [], false⟩).Type' ∉
      [RedshiftType, BigQueryType, PostgresType, ClickHouseType, S3Type, SnowflakeType]) ∧
    ((Create ⟨false, false, false⟩ "dst" "/logs"
        ⟨"weird", "stream", none, [], false⟩).err.isSome = true ∧
      ∀ q ∈ (Create ⟨false, false, false⟩ "dst" "/logs"
          ⟨"weird", "stream", none, [], false⟩).opened,
        q ∈ (Create ⟨false, false, false⟩ "dst" "/logs"
            ⟨"weird", "stream", none, [], false⟩).closed) :=
  ⟨by decide,
   create_unknown_type_errors_and_closes_queue ⟨false, false, false⟩ "dst" "/logs"
     ⟨"weird", "stream", none, [], false⟩ (by decide)⟩

/-- C2: for every destination configuration that supplies both the legacy
string-rule mapping list and the structured mapping rule set in its data
layout, `Create` rejects the configuration with an error at construction
time, returning no storage proxy and no queue. -/
theorem create_rejects_dual_mapping_config (env : Env) (name logEventPath : String)
    (d : DestinationConfig) (dl : DataLayout) (m : schema.Mapping)
    (hdl : d.DataLayout = some dl) (hmap : dl.Mapping ≠ []) (hmaps : dl.Mappings = some m) :
    (Create env name logEventPath d).err.isSome = true ∧
    (Create env name logEventPath d).storageProxy = none ∧
    (Create env name logEventPath d).eventQueue = none := by
  have hdl' : (withDefaults name d).DataLayout = some dl := by
    rw [withDefaults_DataLayout]
    exact hdl
  have he :=
    createResolved_dual_mapping env name logEventPath (withDefaults name d) dl m hdl' hmap hmaps
  have hs := createResolved_err_shape env name logEventPath (withDefaults name d) he
  exact ⟨he, hs.1, hs.2.1⟩

theorem create_rejects_dual_mapping_config_witness :
    ((⟨"", ["a->b"], some ⟨["f"], none⟩, "", []⟩ : DataLayout).Mapping ≠ []) ∧
    ((Create ⟨false, false, false⟩ "postgres" "/logs"
        ⟨"postgres", "batch", some ⟨"", ["a->b"], some ⟨["f"], none⟩, "", []⟩, [],
          false⟩).err.isSome = true ∧
      (Create ⟨false, false, false⟩ "postgres" "/logs"
        ⟨"postgres", "batch", some ⟨"", ["a->b"], some ⟨["f"], none⟩, "", []⟩, [],
          false⟩).storageProxy = none ∧
      (Create ⟨false, false, false⟩ "postgres" "/logs"
        ⟨"postgres", "batch", some ⟨"", ["a->b"], some ⟨["f"], none⟩, "", []⟩, [],
          false⟩).eventQueue = none) :=
  ⟨by decide,
   create_rejects_dual_mapping_config ⟨false, false, false⟩ "postgres" "/logs"
     ⟨"postgres", "batch", some ⟨"", ["a->b"], some ⟨["f"], none⟩, "", []⟩, [], false⟩
     ⟨"", ["a->b"], some ⟨["f"], none⟩, "", []⟩ ⟨["f"], none⟩ rfl (by decide) rfl⟩

/-- C3: for every destination configuration whose defaulted mode is neither
batch nor stream, `Create` returns the mode error, whose message contains both
valid mode names, and no storage proxy or queue is returned. -/
theorem create_invalid_mode_error_names_modes (env : Env) (name logEventPath : String)
    (d : DestinationConfig)
    (h₁ : (withDefaults name d).Mode ≠ BatchMode)
    (h₂ : (withDefaults name d).Mode ≠ StreamMode) :
    (Create env name logEventPath d).storageProxy = none ∧
    (Create env name logEventPath d).eventQueue = none ∧
    (Create env name logEventPath d).err =
      some (modeErrorMessage (withDefaults name d).Mode) ∧
    (∃ a b, modeErrorMessage (withDefaults name d).Mode = a ++ (BatchMode ++ b)) ∧
    (∃ a b, modeErrorMessage (withDefaults name d).Mode = a ++ (StreamMode ++ b)) := by
  have he := createResolved_mode_invalid env name logEventPath (withDefaults name d) h₁ h₂
  rw [Create_def, he]
  exact ⟨rfl, rfl, rfl, modeErrorMessage_contains_batch _, modeErrorMessage_contains_stream _⟩

theorem create_invalid_mode_error_names_modes_witness :
    ((withDefaults "dst" ⟨"postgres", "invalid", none, [], false⟩).Mode ≠ BatchMode) ∧
    ((withDefaults "dst" ⟨"postgres", "invalid", none, [], false⟩).Mode ≠ StreamMode) ∧
    ((Create ⟨false, false, false⟩ "dst" "/logs"
        ⟨"postgres", "invalid", none, [], false⟩).storageProxy = none ∧
      (Create ⟨false, false, false⟩ "dst" "/logs"
        ⟨"postgres", "invalid", none, [], false⟩).eventQueue = none ∧
      (Create ⟨false, false, false⟩ "dst" "/logs"
        ⟨"postgres", "invalid", none, [], false⟩).err =
        some (modeErrorMessage (withDefaults "dst" ⟨"postgres", "invalid", none, [], false⟩).Mode) ∧
      (∃ a b, modeErrorMessage (withDefaults "dst"
        ⟨"postgres", "invalid", none, [], false⟩).Mode = a ++ (BatchMode ++ b)) ∧
      (∃ a b, modeErrorMessage (withDefaults "dst"
        ⟨"postgres", "invalid", none, [], false⟩).Mode = a ++ (StreamMode ++ b))) :=
  ⟨by decide, by decide,
   create_invalid_mode_error_names_modes ⟨false, false, false⟩ "dst" "/logs"
     ⟨"postgres", "invalid", none, [], false⟩ (by decide) (by decide)⟩

/-- C4: on a successful return the queue is non-nil exactly when the defaulted
mode is stream, and when the defaulted mode is not stream no queue is ever
opened during the call. -/
theorem create_queue_iff_stream_mode (env : Env) (name logEventPath : String)
    (d : DestinationConfig) :
    ((Create env name logEventPath d).err = none →
      ((Create env name logEventPath d).eventQueue.isSome = true ↔
        (withDefaults name d).Mode = StreamMode)) ∧
    ((withDefaults name d).Mode ≠ StreamMode →
      (Create env name logEventPath d).opened = []) :=
  ⟨createResolved_queue_iff_stream env name logEventPath (withDefaults name d),
   createResolved_batch_no_queue env name logEventPath (withDefaults name d)⟩

theorem create_queue_iff_stream_mode_witness :
    ((Create ⟨false, false, false⟩ "dst" "/logs"
        ⟨"postgres", "stream", none, [], false⟩).err = none) ∧
    ((Create ⟨false, false, false⟩ "dst" "/logs"
        ⟨"postgres", "stream", none, [], false⟩).eventQueue.isSome = true ↔
      (withDefaults "dst" ⟨"postgres", "stream", none, [], false⟩).Mode = StreamMode) ∧
    ((withDefaults "dst" ⟨"postgres", "batch", none, [], false⟩).Mode ≠ StreamMode) ∧
    ((Create ⟨false, false, false⟩ "dst" "/logs"
        ⟨"postgres", "batch", none, [], false⟩).opened = []) :=
  ⟨by decide,
   (create_queue_iff_stream_mode ⟨false, false, false⟩ "dst" "/logs"
     ⟨"postgres", "stream", none, [], false⟩).1 (by decide),
   by decide,
   (create_queue_iff_stream_mode ⟨false, false, false⟩ "dst" "/logs"
     ⟨"postgres", "batch", none, [], false⟩).2 (by decide)⟩

/-- C5: the table name handed to the mapping step is never empty: the resolved
table name is non-empty for every configuration, equals the fixed default
`events` whenever no non-empty template is configured, and is exactly the
table name stored in the constructed mapping step. -/
theorem create_table_name_never_empty (env : Env) (name logEventPath : String)
    (d : DestinationConfig) (proxy : StorageProxy) :
    effectiveTableName d ≠ "" ∧
    ((∀ dl, d.DataLayout = some dl → dl.TableNameTemplate = "") →
      effectiveTableName d = defaultTableName) ∧
    ((Create env name logEventPath d).storageProxy = some proxy →
      proxy.config.processor.tableName = effectiveTableName d) := by
  refine ⟨?_, ?_, ?_⟩
  · unfold effectiveTableName
    cases hdl : d.DataLayout with
    | none => simp [defaultTableName]
    | some dl =>
      by_cases ht : dl.TableNameTemplate = "" <;> simp [ht, defaultTableName]
  · intro h
    unfold effectiveTableName
    cases hdl : d.DataLayout with
    | none => simp
    | some dl => simp [h dl hdl]
  · intro h
    have hs := createResolved_success env name logEventPath (withDefaults name d) proxy h
    rw [hs.2.2.1, effectiveTableName_congr _ _ (withDefaults_DataLayout name d)]

theorem create_table_name_never_empty_witness :
    ((Create ⟨false, false, false⟩ "dst" "/logs"
        ⟨"postgres", "stream", none, [], false⟩).storageProxy =
      some ⟨StorageKind.postgres,
        { name := "dst",
          destination := ⟨"postgres", "stream", none, [], false⟩,
          processor := ⟨"dst", "events", ⟨⟩,
            [enrichment.Rule.DefaultJsIpRule, enrichment.Rule.DefaultJsUaRule], false⟩,
          streamMode := true,
          eventQueue := some ⟨"queue.dst=dst", "/logs"⟩,
          pkFields := [], sqlTypeCasts := [] }⟩) ∧
    (⟨StorageKind.postgres,
        { name := "dst",
          destination := ⟨"postgres", "stream", none, [], false⟩,
          processor := ⟨"dst", "events", ⟨⟩,
            [enrichment.Rule.DefaultJsIpRule, enrichment.Rule.DefaultJsUaRule], false⟩,
          streamMode := true,
          eventQueue := some ⟨"queue.dst=dst", "/logs"⟩,
          pkFields := [], sqlTypeCasts := [] }⟩ : StorageProxy).config.processor.tableName =
      effectiveTableName ⟨"postgres", "stream", none, [], false⟩ :=
  ⟨by decide,
   (create_table_name_never_empty ⟨false, false, false⟩ "dst" "/logs"
     ⟨"postgres", "stream", none, [], false⟩
     ⟨StorageKind.postgres,
       { name := "dst",
         destination := ⟨"postgres", "stream", none, [], false⟩,
         processor := ⟨"dst", "events", ⟨⟩,
           [enrichment.Rule.DefaultJsIpRule, enrichment.Rule.DefaultJsUaRule], false⟩,
         streamMode := true,
         eventQueue := some ⟨"queue.dst=dst", "/logs"⟩,
         pkFields := [], sqlTypeCasts := [] }⟩).2.2 (by decide)⟩

/-- C6: an empty type field defaults to the destination name and an empty mode
field defaults to batch, and `Create` runs its whole body on the defaulted
configuration, so the defaulting happens before any validation or dispatch. -/
theorem create_defaults_type_and_mode (env : Env) (name logEventPath : String)
    (d : DestinationConfig) :
    (d.Type' = "" → (withDefaults name d).Type' = name) ∧
    (d.Type' ≠ "" → (withDefaults name d).Type' = d.Type') ∧
    (d.Mode = "" → (withDefaults name d).Mode = BatchMode) ∧
    (d.Mode ≠ "" → (withDefaults name d).Mode = d.Mode) ∧
    Create env name logEventPath d =
      createResolved env name logEventPath (withDefaults name d) :=
  ⟨withDefaults_Type_empty name d, withDefaults_Type_nonempty name d,
   withDefaults_Mode_empty name d, withDefaults_Mode_nonempty name d, rfl⟩

theorem create_defaults_type_and_mode_witness :
    ((withDefaults "postgres" ⟨"", "", none, [], false⟩).Type' = "postgres") ∧
    ((withDefaults "postgres" ⟨"", "", none, [], false⟩).Mode = BatchMode) :=
  ⟨(create_defaults_type_and_mode ⟨false, false, false⟩ "postgres" "/logs"
      ⟨"", "", none, [], false⟩).1 (by decide),
   (create_defaults_type_and_mode ⟨false, false, false⟩ "postgres" "/logs"
      ⟨"", "", none, [], false⟩).2.2.1 (by decide)⟩

/-- C7: the enrichment rule list stored in the constructed mapping step is
exactly the two fixed default rules (IP-geolocation and user-agent) first,
followed by one rule per configured enrichment entry in configuration order,
passed explicitly into pipeline construction. -/
theorem create_enrichment_defaults_then_configured (env : Env)
    (name logEventPath : String) (d : DestinationConfig) (proxy : StorageProxy)
    (h : (Create env name logEventPath d).storageProxy = some proxy) :
    proxy.config.processor.enrichmentRules =
      enrichment.Rule.DefaultJsIpRule :: enrichment.Rule.DefaultJsUaRule ::
        d.Enrichment.map (fun rc => enrichment.Rule.configured rc.str) := by
  have hs := createResolved_success env name logEventPath (withDefaults name d) proxy h
  rw [hs.2.2.2.2.2.1, withDefaults_Enrichment]

theorem create_enrichment_defaults_then_configured_witness :
    ((Create ⟨false, false, false⟩ "dst" "/logs"
        ⟨"postgres", "batch", none, [⟨"r1", true⟩, ⟨"r2", true⟩], false⟩).storageProxy =
      some ⟨StorageKind.postgres,
        { name := "dst",
          destination := ⟨"postgres", "batch", none, [⟨"r1", true⟩, ⟨"r2", true⟩], false⟩,
          processor := ⟨"dst", "events", ⟨⟩,
            [enrichment.Rule.DefaultJsIpRule, enrichment.Rule.DefaultJsUaRule,
              enrichment.Rule.configured "r1", enrichment.Rule.configured "r2"], false⟩,
          streamMode := false, eventQueue := none,
          pkFields := [], sqlTypeCasts := [] }⟩) ∧
    (⟨StorageKind.postgres,
        { name := "dst",
          destination := ⟨"postgres", "batch", none, [⟨"r1", true⟩, ⟨"r2", true⟩], false⟩,
          processor := ⟨"dst", "events", ⟨⟩,
            [enrichment.Rule.DefaultJsIpRule, enrichment.Rule.DefaultJsUaRule,
              enrichment.Rule.configured "r1", enrichment.Rule.configured "r2"], false⟩,
          streamMode := false, eventQueue := none,
          pkFields := [], sqlTypeCasts := [] }⟩ : StorageProxy).config.processor.enrichmentRules =
      enrichment.Rule.DefaultJsIpRule :: enrichment.Rule.DefaultJsUaRule ::
        ([⟨"r1", true⟩, ⟨"r2", true⟩] : List enrichment.RuleConfig).map
          (fun rc => enrichment.Rule.configured rc.str) :=
  ⟨by decide,
   create_enrichment_defaults_then_configured ⟨false, false, false⟩ "dst" "/logs"
     ⟨"postgres", "batch", none, [⟨"r1", true⟩, ⟨"r2", true⟩], false⟩
     ⟨StorageKind.postgres,
       { name := "dst",
         destination := ⟨"postgres", "batch", none, [⟨"r1", true⟩, ⟨"r2", true⟩], false⟩,
         processor := ⟨"dst", "events", ⟨⟩,
           [enrichment.Rule.DefaultJsIpRule, enrichment.Rule.DefaultJsUaRule,
             enrichment.Rule.configured "r1", enrichment.Rule.configured "r2"], false⟩,
         streamMode := false, eventQueue := none,
         pkFields := [], sqlTypeCasts := [] }⟩ (by decide)⟩

/-- C9: every queue opened by `Create` carries the name `queue.dst=` followed
by the destination name under the configured event-log path (also when the
queue is the one returned), and this naming is injective: distinct destination
names never share a queue name. -/
theorem create_queue_name_deterministic_injective (env : Env)
    (name logEventPath : String) (d : DestinationConfig) (n₁ n₂ : String) :
    (∀ q ∈ (Create env name logEventPath d).opened,
      q.queueName = "queue.dst=" ++ name ∧ q.logEventPath = logEventPath) ∧
    (∀ q, (Create env name logEventPath d).eventQueue = some q →
      q.queueName = "queue.dst=" ++ name ∧ q.logEventPath = logEventPath) ∧
    (n₁ ≠ n₂ → "queue.dst=" ++ n₁ ≠ "queue.dst=" ++ n₂) := by
  refine ⟨createResolved_opened_names env name logEventPath (withDefaults name d), ?_, ?_⟩
  · intro q hq
    exact createResolved_opened_names env name logEventPath (withDefaults name d) q
      (createResolved_eventQueue_mem_opened env name logEventPath (withDefaults name d) q hq)
  · intro hne h
    exact hne (string_append_left_cancel _ _ _ h)

theorem create_queue_name_deterministic_injective_witness :
    ((Create ⟨false, false, false⟩ "dst" "/logs"
        ⟨"postgres", "stream", none, [], false⟩).eventQueue =
      some ⟨"queue.dst=dst", "/logs"⟩) ∧
    ((⟨"queue.dst=dst", "/logs"⟩ : events.PersistentQueue).queueName =
      "queue.dst=" ++ "dst" ∧
      (⟨"queue.dst=dst", "/logs"⟩ : events.PersistentQueue).logEventPath = "/logs") ∧
    (("a" : String) ≠ "b") ∧
    ("queue.dst=" ++ "a" ≠ "queue.dst=" ++ "b") :=
  ⟨by decide,
   (create_queue_name_deterministic_injective ⟨false, false, false⟩ "dst" "/logs"
     ⟨"postgres", "stream", none, [], false⟩ "a" "b").2.1
     ⟨"queue.dst=dst", "/logs"⟩ (by decide),
   by decide,
   (create_queue_name_deterministic_injective ⟨false, false, false⟩ "dst" "/logs"
     ⟨"postgres", "stream", none, [], false⟩ "a" "b").2.2 (by decide)⟩

/-- C10: whenever `Create` returns a non-nil error, for any cause, both the
returned storage proxy and the returned queue are nil, and every queue opened
during the call is closed before returning. -/
theorem create_error_implies_nil_and_no_leak (env : Env) (name logEventPath : String)
    (d : DestinationConfig)
    (h : (Create env name logEventPath d).err.isSome = true) :
    (Create env name logEventPath d).storageProxy = none ∧
    (Create env name logEventPath d).eventQueue = none ∧
    ∀ q ∈ (Create env name logEventPath d).opened,
      q ∈ (Create env name logEventPath d).closed :=
  createResolved_err_shape env name logEventPath (withDefaults name d) h

theorem create_error_implies_nil_and_no_leak_witness :
    ((Create ⟨false, false, true⟩ "dst" "/logs"
        ⟨"postgres", "stream", none, [], false⟩).err.isSome = true) ∧
    ((Create ⟨false, false, true⟩ "dst" "/logs"
        ⟨"postgres", "stream", none, [], false⟩).storageProxy = none ∧
      (Create ⟨false, false, true⟩ "dst" "/logs"
        ⟨"postgres", "stream", none, [], false⟩).eventQueue = none ∧
      ∀ q ∈ (Create ⟨false, false, true⟩ "dst" "/logs"
          ⟨"postgres", "stream", none, [], false⟩).opened,
        q ∈ (Create ⟨false, false, true⟩ "dst" "/logs"
            ⟨"postgres", "stream", none, [], false⟩).closed) :=
  ⟨by decide,
   create_error_implies_nil_and_no_leak ⟨false, false, true⟩ "dst" "/logs"
     ⟨"postgres", "stream", none, [], false⟩ (by decide)⟩

/-- C8 counterexample: a configuration containing a failing enrichment rule
entry but an invalid mode makes `Create` return the mode error, which is not
the error describing the failed rule, refuting the unrestricted claim. -/
theorem create_rule_failure_counterexample :
    ((⟨"myrule", false⟩ : enrichment.RuleConfig).ok = false) ∧
    ((Create ⟨false, false, false⟩ "dst" "/logs"
        ⟨"postgres", "weird", none, [⟨"myrule", false⟩], false⟩).err.isSome = true) ∧
    ((Create ⟨false, false, false⟩ "dst" "/logs"
        ⟨"postgres", "weird", none, [⟨"myrule", false⟩], false⟩).err ≠
      some (enrichmentRuleError ⟨"myrule", false⟩ "invalid enrichment rule")) := by
  refine ⟨by decide, by decide, by decide⟩

/-- C8 (amended): for every destination configuration whose defaulted mode is
valid (batch or stream), if the enrichment list contains a failing entry then
`Create` aborts with the error describing the first failing rule, and the
destination is never activated (no storage proxy, no queue). -/
theorem create_rule_failure_aborts (env : Env) (name logEventPath : String)
    (d : DestinationConfig) (rc : enrichment.RuleConfig)
    (hmode : (withDefaults name d).Mode = BatchMode ∨
      (withDefaults name d).Mode = StreamMode)
    (hfound : d.Enrichment.find? (fun x => !x.ok) = some rc) :
    (Create env name logEventPath d).err =
      some (enrichmentRuleError rc "invalid enrichment rule") ∧
    (Create env name logEventPath d).storageProxy = none ∧
    (Create env name logEventPath d).eventQueue = none := by
  have hmode' : ¬((withDefaults name d).Mode ≠ BatchMode ∧
      (withDefaults name d).Mode ≠ StreamMode) := by
    rcases hmode with h | h <;> simp [h]
  have hbuild : buildConfiguredRules (withDefaults name d).Enrichment =
      Except.error (enrichmentRuleError rc "invalid enrichment rule") := by
    rw [withDefaults_Enrichment]
    exact buildConfiguredRules_find d.Enrichment rc hfound
  have he := createResolved_rules_error env name logEventPath (withDefaults name d) _
    hmode' hbuild
  rw [Create_def, he]
  exact ⟨rfl, rfl, rfl⟩

theorem create_rule_failure_aborts_witness :
    ((withDefaults "dst" ⟨"postgres", "batch", none,
        [⟨"r1", true⟩, ⟨"r2", false⟩], false⟩).Mode = BatchMode) ∧
    (([⟨"r1", true⟩, ⟨"r2", false⟩] :
        List enrichment.RuleConfig).find? (fun x => !x.ok) = some ⟨"r2", false⟩) ∧
    ((Create ⟨false, false, false⟩ "dst" "/logs"
        ⟨"postgres", "batch", none, [⟨"r1", true⟩, ⟨"r2", false⟩], false⟩).err =
      some (enrichmentRuleError ⟨"r2", false⟩ "invalid enrichment rule") ∧
      (Create ⟨false, false, false⟩ "dst" "/logs"
        ⟨"postgres", "batch", none, [⟨"r1", true⟩, ⟨"r2", false⟩], false⟩).storageProxy =
        none ∧
      (Create ⟨false, false, false⟩ "dst" "/logs"
        ⟨"postgres", "batch", none, [⟨"r1", true⟩, ⟨"r2", false⟩], false⟩).eventQueue =
        none) :=
  ⟨by decide, by decide,
   create_rule_failure_aborts ⟨false, false, false⟩ "dst" "/logs"
     ⟨"postgres", "batch", none, [⟨"r1", true⟩, ⟨"r2", false⟩], false⟩ ⟨"r2", false⟩
     (Or.inl (by decide)) (by decide)⟩

end jitsu
